import Mathlib

/-!
Shallow embedding of the NoComponentDrag Fusion 360 add-in
(`NoComponentDrag.py`, `thomasa88lib/events.py`, `thomasa88lib/utils.py`)
and proofs about its behaviour.

Python values that can be `True`, `False` or `None` are modelled as
`Option Bool` (`some b` for a `bool`, `none` for Python `None`);
host faults are modelled with `Except`.
-/

set_option autoImplicit false

/-- Python truthiness of a `True`/`False`/`None` value: `None` and `False`
are falsy, `True` is truthy. -/
def pyTruthy : Option Bool → Bool
  | some b => b
  | none => false

/-! ## `thomasa88lib/utils.py` -/

/-- The two `adsk.fusion.DesignTypes` values compared by `is_parametric_mode`:
`ParametricDesignType` and `DirectDesignType`. -/
inductive DesignTypeKind where
  | parametric
  | direct
deriving DecidableEq

/-- `utils.is_parametric_mode` (utils.py lines 96-105).

Host queries are passed in as results: `activeWorkspaceId` is the result of
evaluating `ui_.activeWorkspace.id` (`Except.error` if any of those host
accesses raised), and `activeProduct` is the result of
`adsk.fusion.Design.cast(app_.activeProduct)` followed by reading
`designType` (`Except.error` if raising, `Except.ok none` when the cast
returns `None` because the product is not a Design).

The Python body is
```
try:
    app_, ui_ = AppObjects()
    if ui_.activeWorkspace.id == 'FusionSolidEnvironment':
        design = adsk.fusion.Design.cast(app_.activeProduct)
        return bool(design and design.designType == adsk.fusion.DesignTypes.ParametricDesignType)
except: return False
```
Note that when the workspace id query succeeds and the id is NOT
`'FusionSolidEnvironment'`, control falls off the end of the function, so
Python returns `None` (modelled as `none`), not `False`. -/
def is_parametric_mode (activeWorkspaceId : Except Unit String)
    (activeProduct : Except Unit (Option DesignTypeKind)) : Option Bool :=
  match activeWorkspaceId with
  | .error _ => some false
  | .ok wsId =>
    if wsId = "FusionSolidEnvironment" then
      match activeProduct with
      | .error _ => some false
      | .ok none => some false
      | .ok (some dt) => some (decide (dt = DesignTypeKind.parametric))
    else
      none

/-- `utils.clear_ui_items` (utils.py lines 91-93):
`all([item.deleteMe() for item in items if item is not None])`.

Each provided item is modelled by the `Bool` its `deleteMe()` call would
return; an absent (`None`) argument is `none`. -/
def clear_ui_items (items : List (Option Bool)) : Bool :=
  (items.filterMap id).all id

/-! ## `thomasa88lib/events.py` — `EventsManager` delay machinery -/

/-- The delay-related state of `EventsManager` (events.py lines 47-48):
the monotonically increasing `next_delay_id` counter and the
`delayed_funcs` dict mapping a pending delay id to its stored callback.
Callbacks are opaque tokens of type `α`. The dict is modelled as an
association list; `delay` only ever inserts fresh keys (the counter),
matching dict-insertion semantics. -/
structure EMState (α : Type) where
  next_delay_id : Nat
  delayed_funcs : List (Nat × α)
deriving DecidableEq

/-- A freshly constructed `EventsManager` (events.py `__init__`):
`next_delay_id = 0`, `delayed_funcs = {}`. -/
def emFresh (α : Type) : EMState α := ⟨0, []⟩

/-- One call of `EventsManager.delay(func)` (events.py lines 89-106), its
bookkeeping effect: allocate `delay_id = next_delay_id`, increment the
counter, store `func` under the id, and (via `fireCustomEvent`) arrange for
the id to be delivered to `_delayed_event_handler`. Returns the new state
and the assigned id. -/
def em_delay {α : Type} (func : α) (s : EMState α) : EMState α × Nat :=
  let delay_id := s.next_delay_id
  (⟨delay_id + 1, s.delayed_funcs ++ [(delay_id, func)]⟩, delay_id)

/-- A sequence of `delay` calls, one per listed callback; returns the final
state and the list of assigned delay ids in call order. -/
def em_delayN {α : Type} (funcs : List α) (s : EMState α) : EMState α × List Nat :=
  match funcs with
  | [] => (s, [])
  | f :: rest =>
    let (s1, i) := em_delay f s
    let (s2, ids) := em_delayN rest s1
    (s2, i :: ids)

/-- `EventsManager._delayed_event_handler` (events.py lines 108-111):
```
delay_id = int(args.additionalInfo)
func = self.delayed_funcs.pop(delay_id, None)
func()
```
`pop` removes and returns the stored callback when the id is present; when
the id is absent it returns the default `None`, and the unconditional
`func()` then raises `TypeError: NoneType object is not callable`.
The result is the invoked callback together with the updated state, or the
raised fault. -/
def em_dispatch {α : Type} (payload : Nat) (s : EMState α) :
    Except String (α × EMState α) :=
  match s.delayed_funcs.lookup payload with
  | some func =>
    .ok (func, ⟨s.next_delay_id, s.delayed_funcs.eraseP (fun p => p.1 == payload)⟩)
  | none => .error "TypeError: NoneType object is not callable"

/-- Firing the delayed custom event once per listed id, in the given order.
A fault in one dispatch is caught by the surrounding `ErrorCatcher` (the
handler is wrapped by `error._error_catcher_wrapper`), so later firings
still run against the then-current state. -/
def em_dispatchSeq {α : Type} : List Nat → EMState α → List (Except String α) × EMState α
  | [], s => ([], s)
  | i :: rest, s =>
    match em_dispatch i s with
    | .ok (f, s1) =>
      let r := em_dispatchSeq rest s1
      (.ok f :: r.1, r.2)
    | .error e =>
      let r := em_dispatchSeq rest s
      (.error e :: r.1, r.2)

/-! ## `thomasa88lib/events.py` — handler bookkeeping -/

/-- `EventsManager.find_handler_by_event` (events.py lines 140-144):
```
def find_handler_by_event(self, findevent):
    eventName = findevent.name
    for handler, event in self.handlers:
        if eventName == event.name:
            return handler
```
A tracked subscription `(handler, event)` is modelled by a handler token
and the event's `name`; the method returns the first matching handler (or
`None`) and does not modify `self.handlers`, so the operation's result is
the found handler together with the unchanged handler collection. -/
def find_handler_by_event (handlers : List (Nat × String)) (findeventName : String) :
    Option Nat × List (Nat × String) :=
  ((handlers.find? (fun p => findeventName == p.2)).map (fun p => p.1), handlers)

/-! ## `NoComponentDrag.py` — module state and handlers -/

/-- The module-level mutable state of `NoComponentDrag.py` touched by the
claims: the cached environment flag `parametric_environment_` (raw Python
value: `True`, `False`, or `None` as produced by `is_parametric_mode`), the
re-entrancy guard `addin_updating_checkbox_`, the companion checkbox's
`isVisible` and `isChecked`, and the host native toggle
`fusion_drag_controls_def_.isChecked`. -/
structure AddinState where
  parametric_environment_ : Option Bool
  addin_updating_checkbox_ : Bool
  enable_isVisible : Bool
  enable_isChecked : Bool
  fusion_isChecked : Bool
deriving DecidableEq

/-- `get_drag_enabled` (NoComponentDrag.py lines 67-69): reads
`fusion_drag_controls_def_.isChecked`. -/
def get_drag_enabled (s : AddinState) : Bool := s.fusion_isChecked

/-- `set_drag_enabled` (NoComponentDrag.py line 70): writes
`fusion_drag_controls_def_.isChecked`. -/
def set_drag_enabled (value : Bool) (s : AddinState) : AddinState :=
  { s with fusion_isChecked := value }

/-- `adsk.core.CommandTerminationReason` values. -/
inductive CommandTerminationReason where
  | completed
  | aborted
  | cancelled
  | preEmpted
  | sessionEnding
  | unknown
deriving DecidableEq

/-- `adsk.core.ApplicationCommandEventArgs`: the fields read or written by
the add-in's command handlers. -/
structure ApplicationCommandEventArgs where
  commandId : String
  isCanceled : Bool
  terminationReason : CommandTerminationReason
deriving DecidableEq

/-- `command_starting_handler` (NoComponentDrag.py lines 37-40):
```
if parametric_environment_ and args.commandId == 'FusionDragComponentsCommand' and not get_drag_enabled():
    args.isCanceled = True
```
The cached flag is tested for truthiness. -/
def command_starting_handler (s : AddinState) (args : ApplicationCommandEventArgs) :
    ApplicationCommandEventArgs :=
  if pyTruthy s.parametric_environment_
      && (args.commandId == "FusionDragComponentsCommand")
      && !(get_drag_enabled s) then
    { args with isCanceled := true }
  else
    args

/-- `command_terminated_handler` (NoComponentDrag.py lines 47-56), reduced
to whether it calls `check_environment()`:
```
if (args.commandId in ('ActivateEnvironmentCommand', 'PLM360OpenAttachmentCommand', 'CurrentlyOpenDocumentsCommand') or
    (args.terminationReason == adsk.core.CommandTerminationReason.CompletedTerminationReason and
     args.commandId in ('Undo', 'Redo','ConvertToPMDesignCommand', 'ConvertToDMDesignCommand',
                        'BaseFeatureActivate', 'BaseFeatureStop', 'BaseFeatureCreationCommand'))):
    check_environment()
``` -/
def command_terminated_handler (args : ApplicationCommandEventArgs) : Bool :=
  decide (args.commandId ∈ ["ActivateEnvironmentCommand", "PLM360OpenAttachmentCommand",
    "CurrentlyOpenDocumentsCommand"])
  || (decide (args.terminationReason = CommandTerminationReason.completed)
      && decide (args.commandId ∈ ["Undo", "Redo", "ConvertToPMDesignCommand",
        "ConvertToDMDesignCommand", "BaseFeatureActivate", "BaseFeatureStop",
        "BaseFeatureCreationCommand"]))

/-- `enable_cmd_created_handler` (NoComponentDrag.py lines 58-63): fired by
the host whenever the companion checkbox's state changes. If the add-in is
mid-way through a programmatic checkbox write (`addin_updating_checkbox_`),
return without doing anything; otherwise copy the companion checkbox's new
checked value onto the host native toggle (`set_drag_enabled`). -/
def enable_cmd_created_handler (s : AddinState) : AddinState :=
  if s.addin_updating_checkbox_ then s
  else set_drag_enabled s.enable_isChecked s

/-- `check_environment` (NoComponentDrag.py lines 73-87). `is_parametric`
is the raw value returned by `utils.is_parametric_mode()` for this call.
Returns the new state and whether `events_manager_.delay(update_checkbox)`
was invoked:
```
is_parametric = utils.is_parametric_mode()
if parametric_environment_ == is_parametric: return
enable_ctrl_def_.isVisible = parametric_environment_ = is_parametric
if is_parametric and enable_ctrl_def_.isChecked != get_drag_enabled():
    events_manager_.delay(update_checkbox)
```
The `==` on the first line is Python equality on `True`/`False`/`None`
(modelled by `Option Bool` equality); the host coerces the assigned
`isVisible` value to a `bool` (truthiness). -/
def check_environment (is_parametric : Option Bool) (s : AddinState) :
    AddinState × Bool :=
  if s.parametric_environment_ == is_parametric then (s, false)
  else
    let s1 := { s with enable_isVisible := pyTruthy is_parametric,
                       parametric_environment_ := is_parametric }
    if pyTruthy is_parametric && (s1.enable_isChecked != get_drag_enabled s1) then
      (s1, true)
    else
      (s1, false)

/-- `update_checkbox` (NoComponentDrag.py lines 89-97):
```
direct_edit_drag_ = get_drag_enabled()
if enable_ctrl_def_.isChecked != direct_edit_drag_:
    addin_updating_checkbox_ = True
    enable_ctrl_def_.isChecked = direct_edit_drag_
    addin_updating_checkbox_ = False
```
Writing `enable_ctrl_def_.isChecked` makes the host fire the companion
command's creation notification synchronously, so the write step also runs
`enable_cmd_created_handler` on the state produced by the write. -/
def update_checkbox (s : AddinState) : AddinState :=
  let direct_edit_drag_ := get_drag_enabled s
  if s.enable_isChecked != direct_edit_drag_ then
    let s1 := { s with addin_updating_checkbox_ := true }
    let s2 := enable_cmd_created_handler { s1 with enable_isChecked := direct_edit_drag_ }
    { s2 with addin_updating_checkbox_ := false }
  else
    s

/-- The states holding during `update_checkbox`'s programmatic write to the
companion checkbox, in order: the state right after the guard flag is set
(write about to start), the state right after the `isChecked` assignment
(observed by the host-fired `enable_cmd_created_handler`), and the state
the triggered handler returns (write finished, guard not yet cleared).
Empty when no write happens. Mirrors the body of `update_checkbox`. -/
def update_checkbox_write_phase (s : AddinState) : List AddinState :=
  let direct_edit_drag_ := get_drag_enabled s
  if s.enable_isChecked != direct_edit_drag_ then
    let s1 := { s with addin_updating_checkbox_ := true }
    let s1w := { s1 with enable_isChecked := direct_edit_drag_ }
    [s1, s1w, enable_cmd_created_handler s1w]
  else
    []

/-! ## `NoComponentDrag.py` — `run` (lines 105-134) -/

/-- The externally observable effects of `run` that the startup claims are
about (NoComponentDrag.py lines 105-134), as a function of
`app_.isStartupComplete`:
* `handlers_added` — the events subscribed through
  `events_manager_.add_handler` during `run`, in order (lines 125-128),
  plus the delay custom event's dispatch handler that the first
  `events_manager_.delay` call lazily subscribes (events.py lines 91-93).
  The `app_.startupCompleted` subscription is commented out (line 129) and
  no `workspaceActivated` subscription exists anywhere in the source.
* `sync_check_environment_calls` — synchronous calls of
  `check_environment()` during `run`: line 132 runs it only
  `if app_.isStartupComplete`.
* `delayed_check_environment_scheduled` — calls of
  `events_manager_.delay(check_environment)` during `run`: line 134 runs
  unconditionally, once. -/
structure RunModel where
  handlers_added : List String
  sync_check_environment_calls : Nat
  delayed_check_environment_scheduled : Nat
deriving DecidableEq

/-- `run` (NoComponentDrag.py lines 105-134), reduced to its `RunModel`
effects. -/
def run (isStartupComplete : Bool) : RunModel :=
  { handlers_added := ["enable_cmd_def_.commandCreated", "ui_.commandStarting",
      "ui_.commandTerminated", "app_.documentActivated", "events_manager_ delay custom event"],
    sync_check_environment_calls := if isStartupComplete then 1 else 0,
    delayed_check_environment_scheduled := 1 }

/-! ## Theorems -/

/-- **C1** For every command-starting event delivered to
`command_starting_handler`, the event is marked canceled if and only if the
cached `parametric_environment_` flag is (truthily) `True`, the event's
command id equals `'FusionDragComponentsCommand'`, and the host native drag
toggle `fusion_drag_controls_def_.isChecked` is off; in every other
combination the event is left un-canceled. -/
theorem command_starting_cancels_iff (s : AddinState) (args : ApplicationCommandEventArgs)
    (h : args.isCanceled = false) :
    (command_starting_handler s args).isCanceled = true ↔
      (s.parametric_environment_ = some true
       ∧ args.commandId = "FusionDragComponentsCommand"
       ∧ s.fusion_isChecked = false) := by
  rcases hp : s.parametric_environment_ with _ | b <;> try cases b
  all_goals
    by_cases hid : args.commandId = "FusionDragComponentsCommand" <;>
      cases hf : s.fusion_isChecked <;>
        simp [command_starting_handler, get_drag_enabled, pyTruthy, hp, hid, hf, h]

/-- Witness for `command_starting_cancels_iff` at a concrete state and
event: parametric mode cached as `True`, native toggle off, the drag
command starting un-canceled. -/
theorem command_starting_cancels_iff_witness :
    (⟨"FusionDragComponentsCommand", false, CommandTerminationReason.unknown⟩ :
        ApplicationCommandEventArgs).isCanceled = false
    ∧ ((command_starting_handler
          (⟨some true, false, true, false, false⟩ : AddinState)
          (⟨"FusionDragComponentsCommand", false, CommandTerminationReason.unknown⟩ :
            ApplicationCommandEventArgs)).isCanceled = true ↔
        ((⟨some true, false, true, false, false⟩ : AddinState).parametric_environment_ = some true
         ∧ (⟨"FusionDragComponentsCommand", false, CommandTerminationReason.unknown⟩ :
              ApplicationCommandEventArgs).commandId = "FusionDragComponentsCommand"
         ∧ (⟨some true, false, true, false, false⟩ : AddinState).fusion_isChecked = false)) :=
  ⟨rfl, command_starting_cancels_iff _ _ rfl⟩

/-- **C2** counterexample: a command-terminated event with id
`'PLM360OpenAttachmentCommand'` and a non-`completed` termination reason
does trigger a re-check, although that id is outside both sets listed by
the claim — the live handler also treats `'PLM360OpenAttachmentCommand'`
and `'CurrentlyOpenDocumentsCommand'` as unconditional triggers. -/
theorem terminated_recheck_claim_counterexample :
    command_terminated_handler
      ⟨"PLM360OpenAttachmentCommand", false, CommandTerminationReason.aborted⟩ = true
    ∧ "PLM360OpenAttachmentCommand" ≠ "ActivateEnvironmentCommand"
    ∧ "PLM360OpenAttachmentCommand" ∉ ["Undo", "Redo", "ConvertToPMDesignCommand",
        "ConvertToDMDesignCommand", "BaseFeatureActivate", "BaseFeatureStop",
        "BaseFeatureCreationCommand"] := by
  refine ⟨rfl, by decide, by decide⟩

/-- **C2** (amended): `command_terminated_handler` triggers a re-check
exactly when the command id is one of `'ActivateEnvironmentCommand'`,
`'PLM360OpenAttachmentCommand'`, `'CurrentlyOpenDocumentsCommand'` (any
termination reason), or the termination reason is `completed` and the id is
one of the seven conditional ids; every other event triggers no re-check. -/
theorem terminated_recheck_iff (args : ApplicationCommandEventArgs) :
    command_terminated_handler args = true ↔
      (args.commandId ∈ ["ActivateEnvironmentCommand", "PLM360OpenAttachmentCommand",
          "CurrentlyOpenDocumentsCommand"]
       ∨ (args.terminationReason = CommandTerminationReason.completed
          ∧ args.commandId ∈ ["Undo", "Redo", "ConvertToPMDesignCommand",
              "ConvertToDMDesignCommand", "BaseFeatureActivate", "BaseFeatureStop",
              "BaseFeatureCreationCommand"])) := by
  simp [command_terminated_handler]

/-- **C4** (code evaluated at the failing input): firing the delayed custom
event with an id that has no stored callback does not complete as a no-op —
`delayed_funcs.pop(delay_id, None)` yields `None` and the unconditional
`func()` raises `TypeError`. Shown on a fresh manager (id never allocated)
and on a manager whose table holds a different id. -/
theorem dispatch_missing_id_raises :
    em_dispatch 0 (emFresh Nat) =
      Except.error "TypeError: NoneType object is not callable"
    ∧ em_dispatch 5 (⟨6, [(4, 0)]⟩ : EMState Nat) =
      Except.error "TypeError: NoneType object is not callable" :=
  ⟨rfl, rfl⟩

/-- **C5** (code evaluated at the failing input): when the active-workspace
query succeeds but the id is not `'FusionSolidEnvironment'`,
`is_parametric_mode` falls off the end of the function and returns `None` —
not `False` as specified. The `False` cases the claim lists do hold for the
error path, the non-design product, and the direct-edit design type. -/
theorem is_parametric_mode_nonsolid_returns_none :
    is_parametric_mode (Except.ok "FusionDrawingEnvironment") (Except.ok none) = none
    ∧ is_parametric_mode (Except.ok "FusionDrawingEnvironment") (Except.ok none) ≠ some false
    ∧ is_parametric_mode (Except.error ()) (Except.ok none) = some false
    ∧ is_parametric_mode (Except.ok "FusionSolidEnvironment")
        (Except.ok (some DesignTypeKind.parametric)) = some true
    ∧ is_parametric_mode (Except.ok "FusionSolidEnvironment")
        (Except.ok (some DesignTypeKind.direct)) = some false
    ∧ is_parametric_mode (Except.ok "FusionSolidEnvironment") (Except.ok none) = some false := by
  refine ⟨by decide, by decide, rfl, by decide, by decide, by decide⟩

/-- **C10** For every call of `clear_ui_items` in which every provided
argument is absent (`None`), including a call with zero arguments, the
function returns `True`: `all` over the empty comprehension is vacuous. -/
theorem clear_ui_items_all_none_true (items : List (Option Bool))
    (h : ∀ x ∈ items, x = none) : clear_ui_items items = true := by
  unfold clear_ui_items
  rw [List.all_eq_true]
  intro b hb
  rw [List.mem_filterMap] at hb
  obtain ⟨a, ha, hab⟩ := hb
  rw [h a ha] at hab
  cases hab

/-- Witness for `clear_ui_items_all_none_true`: the defensive pre-clean in
`run` on a first load, where neither the companion command definition nor
the companion control exists (both lookups return `None`). -/
theorem clear_ui_items_all_none_true_witness :
    (∀ x ∈ ([none, none] : List (Option Bool)), x = none)
    ∧ clear_ui_items [none, none] = true :=
  ⟨by decide, clear_ui_items_all_none_true [none, none] (by decide)⟩

/-- **C3** counterexample: invoking `run` during application startup
(`app_.isStartupComplete` false) subscribes no workspace-activated handler
at all — the claimed one-shot workspace-activated subscription does not
occur (the only startup accommodation is skipping the synchronous
`check_environment()` call; the `startupCompleted` subscription is
commented out in the source). -/
theorem run_startup_claim_counterexample :
    (run false).sync_check_environment_calls = 0
    ∧ "workspaceActivated" ∉ (run false).handlers_added
    ∧ ∀ ev ∈ (run false).handlers_added,
        ev ∈ ["enable_cmd_def_.commandCreated", "ui_.commandStarting",
          "ui_.commandTerminated", "app_.documentActivated",
          "events_manager_ delay custom event"] := by
  refine ⟨rfl, by decide, by decide⟩

/-- **C3** (amended): when `run` is invoked during application startup,
`check_environment` is not invoked synchronously during `run`; instead
exactly one deferred `check_environment` is scheduled through the event
manager's delay primitive, no workspace-activated handler is subscribed,
and the deferred callback runs exactly once: its fresh id (0 on the
manager's first `delay` call) is dispatched to exactly that callback and
removed from the pending table, so the table afterwards is empty. -/
theorem run_startup_defers_via_delay :
    (run false).sync_check_environment_calls = 0
    ∧ (run false).delayed_check_environment_scheduled = 1
    ∧ "workspaceActivated" ∉ (run false).handlers_added
    ∧ (em_delay 0 (emFresh Nat)).2 = 0
    ∧ em_dispatch 0 (em_delay 0 (emFresh Nat)).1 =
        Except.ok (0, (⟨1, []⟩ : EMState Nat)) :=
  ⟨rfl, rfl, by decide, rfl, rfl⟩

/-- **C6** For every synchronization write performed by `update_checkbox`
from a state where the guard flag is clear: the guard flag
`addin_updating_checkbox_` is true throughout the programmatic write to the
companion checkbox (including in the state observed by the host-fired
`enable_cmd_created_handler`), it is false again immediately after
`update_checkbox` returns, the host native toggle is not written; and every
`enable_cmd_created_handler` invocation that observes the flag true returns
its state unchanged (in particular without writing the host native
toggle). -/
theorem guard_flag_symmetry (s : AddinState) (h : s.addin_updating_checkbox_ = false) :
    ((∀ t ∈ update_checkbox_write_phase s, t.addin_updating_checkbox_ = true)
     ∧ (update_checkbox s).addin_updating_checkbox_ = false
     ∧ (update_checkbox s).fusion_isChecked = s.fusion_isChecked)
    ∧ ∀ s2 : AddinState, s2.addin_updating_checkbox_ = true →
        enable_cmd_created_handler s2 = s2 := by
  constructor
  · by_cases hc : s.enable_isChecked = s.fusion_isChecked <;>
      simp [update_checkbox, update_checkbox_write_phase, enable_cmd_created_handler,
        get_drag_enabled, hc, h]
  · intro s2 h2
    simp [enable_cmd_created_handler, h2]

/-- Witness for `guard_flag_symmetry`: a state with the guard clear where
the companion checkbox (unchecked) disagrees with the host native toggle
(checked), so the programmatic write actually happens. -/
theorem guard_flag_symmetry_witness :
    (⟨some true, false, true, false, true⟩ : AddinState).addin_updating_checkbox_ = false
    ∧ (((∀ t ∈ update_checkbox_write_phase (⟨some true, false, true, false, true⟩ : AddinState),
            t.addin_updating_checkbox_ = true)
        ∧ (update_checkbox (⟨some true, false, true, false, true⟩ : AddinState)).addin_updating_checkbox_ = false
        ∧ (update_checkbox (⟨some true, false, true, false, true⟩ : AddinState)).fusion_isChecked =
            (⟨some true, false, true, false, true⟩ : AddinState).fusion_isChecked)
       ∧ ∀ s2 : AddinState, s2.addin_updating_checkbox_ = true →
           enable_cmd_created_handler s2 = s2) :=
  ⟨rfl, guard_flag_symmetry _ rfl⟩

/-- **C7** For all calls of `check_environment`: if the detected mode value
equals the cached `parametric_environment_` at the start of the call, the
call returns with the state unchanged (in particular the companion
control's visibility) and schedules no checkbox update; in particular the
second of two consecutive calls with the same detected mode is such a
no-op. -/
theorem check_environment_idempotent :
    (∀ (s : AddinState) (v : Option Bool), s.parametric_environment_ = v →
        check_environment v s = (s, false))
    ∧ ∀ (s : AddinState) (v : Option Bool),
        check_environment v (check_environment v s).1 = ((check_environment v s).1, false) := by
  have base : ∀ (s : AddinState) (v : Option Bool), s.parametric_environment_ = v →
      check_environment v s = (s, false) := by
    intro s v h
    simp [check_environment, h]
  refine ⟨base, ?_⟩
  intro s v
  apply base
  by_cases hb : (s.parametric_environment_ == v) = true
  · rw [show check_environment v s = (s, false) from by simp [check_environment, hb]]
    simpa using hb
  · unfold check_environment
    rw [if_neg hb]
    dsimp only
    split <;> rfl

/-- Witness for `check_environment_idempotent`: a call whose detected mode
(`True`) equals the cached flag leaves the state untouched and schedules
nothing. -/
theorem check_environment_idempotent_witness :
    (⟨some true, false, true, true, true⟩ : AddinState).parametric_environment_ = some true
    ∧ check_environment (some true) (⟨some true, false, true, true, true⟩ : AddinState) =
        ((⟨some true, false, true, true, true⟩ : AddinState), false) :=
  ⟨rfl, check_environment_idempotent.1 _ _ rfl⟩

/-- **C9** counterexample: `find_handler_by_event` removes nothing — after
the call, the matching tracked subscription is still present in the
manager's handler collection. (The method only finds and returns the
handler; the claim's removal does not happen.) -/
theorem find_handler_no_removal_counterexample :
    (find_handler_by_event [(1, "WorkspaceEvent")] "WorkspaceEvent").1 = some 1
    ∧ (find_handler_by_event [(1, "WorkspaceEvent")] "WorkspaceEvent").2 =
        [(1, "WorkspaceEvent")]
    ∧ (1, "WorkspaceEvent") ∈ (find_handler_by_event [(1, "WorkspaceEvent")] "WorkspaceEvent").2 := by
  refine ⟨rfl, rfl, by decide⟩

/-- **C9** (amended): `find_handler_by_event`, given an event source, finds
the first tracked `(handler, event-source)` subscription whose event source
matches the given event by name and returns that handler; the tracked
handler collection is left unchanged — no subscription is removed and the
handler stays subscribed (removal must be done separately, e.g. via
`remove_handler`). -/
theorem find_handler_by_event_spec (pre post : List (Nat × String)) (hd : Nat) (en : String)
    (hpre : ∀ q ∈ pre, q.2 ≠ en) :
    (find_handler_by_event (pre ++ (hd, en) :: post) en).1 = some hd
    ∧ (find_handler_by_event (pre ++ (hd, en) :: post) en).2 = pre ++ (hd, en) :: post := by
  refine ⟨?_, rfl⟩
  have key : ∀ (l : List (Nat × String)), (∀ q ∈ l, q.2 ≠ en) →
      List.find? (fun p => en == p.2) (l ++ (hd, en) :: post) = some (hd, en) := by
    intro l
    induction l with
    | nil =>
      intro _
      simp [List.find?_cons]
    | cons q rest ih =>
      intro hp
      have hq : (en == q.2) = false := by
        have hne := hp q (by simp)
        simpa using Ne.symm hne
      rw [List.cons_append, List.find?_cons, hq]
      exact ih (fun r hr => hp r (by simp [hr]))
  unfold find_handler_by_event
  rw [key pre hpre]
  rfl

/-- Witness for `find_handler_by_event_spec`: a two-subscription collection
whose second entry matches the fired event's name; the handler is found and
the collection is returned intact. -/
theorem find_handler_by_event_spec_witness :
    (∀ q ∈ [((5 : Nat), "OtherEvent")], q.2 ≠ "WorkspaceActivatedEvent")
    ∧ ((find_handler_by_event ([((5 : Nat), "OtherEvent")] ++ (9, "WorkspaceActivatedEvent") :: [])
          "WorkspaceActivatedEvent").1 = some 9
       ∧ (find_handler_by_event ([((5 : Nat), "OtherEvent")] ++ (9, "WorkspaceActivatedEvent") :: [])
            "WorkspaceActivatedEvent").2 =
          [((5 : Nat), "OtherEvent")] ++ (9, "WorkspaceActivatedEvent") :: []) :=
  ⟨by decide, find_handler_by_event_spec [(5, "OtherEvent")] [] 9 "WorkspaceActivatedEvent" (by decide)⟩

/-! ## Delay-id bookkeeping lemmas (shared helpers for the delay claims) -/

/-- Shape of the manager state after a sequence of `delay` calls: the
assigned ids are the consecutive counter values starting at the old
`next_delay_id`, and the corresponding `(id, func)` pairs are appended to
the pending table in order. -/
theorem em_delayN_eq {α : Type} (funcs : List α) (s : EMState α) :
    em_delayN funcs s =
      (⟨s.next_delay_id + funcs.length,
        s.delayed_funcs ++ (List.range' s.next_delay_id funcs.length).zip funcs⟩,
       List.range' s.next_delay_id funcs.length) := by
  induction funcs generalizing s with
  | nil => simp [em_delayN, List.range']
  | cons f rest ih =>
    simp only [em_delayN, em_delay, ih, List.length_cons, List.range'_succ,
      List.zip_cons_cons]
    refine Prod.ext ?_ rfl
    refine congrArg₂ EMState.mk (by omega) ?_
    simp

/-- Looking up the `k`-th assigned id in a zipped `range'` table retrieves
the `k`-th scheduled callback. -/
theorem lookup_zip_range' {α : Type} (funcs : List α) (a k : Nat) :
    ((List.range' a funcs.length).zip funcs).lookup (a + k) = funcs.get? k := by
  induction funcs generalizing a k with
  | nil => simp [List.lookup]
  | cons f rest ih =>
    cases k with
    | zero =>
      simp [List.length_cons, List.range'_succ, List.zip_cons_cons, List.lookup]
    | succ k =>
      have hne : (a + (k + 1) == a) = false := by
        simp only [beq_eq_false_iff_ne]
        omega
      simp only [List.length_cons, List.range'_succ, List.zip_cons_cons, List.lookup, hne]
      have harith : a + (k + 1) = a + 1 + k := by omega
      rw [harith]
      exact ih (a + 1) k

/-- Removing the table entry of one delay id does not disturb the lookup of
any other id. -/
theorem lookup_eraseP_ne {α : Type} (l : List (Nat × α)) (i j : Nat) (hij : i ≠ j) :
    (l.eraseP (fun p => p.1 == i)).lookup j = l.lookup j := by
  induction l with
  | nil => rfl
  | cons q rest ih =>
    obtain ⟨qk, qv⟩ := q
    rw [List.eraseP_cons]
    by_cases hq : qk = i
    · have hcond : (qk == i) = true := by simp [hq]
      simp only [hcond, cond_true]
      have hjq : (j == qk) = false := by
        simp only [beq_eq_false_iff_ne]
        intro he
        exact hij (he.trans hq).symm
      simp [List.lookup, hjq]
    · have hcond : (qk == i) = false := by
        simp only [beq_eq_false_iff_ne]
        exact hq
      simp only [hcond, cond_false]
      by_cases hqj : j = qk
      · simp [List.lookup, hqj]
      · have h1 : (j == qk) = false := by
          simp only [beq_eq_false_iff_ne]
          exact hqj
        simp [List.lookup, h1, ih]

/-- Dispatch correctness for a sequence of distinct fired ids: if the
manager's pending table maps each fired id to the callback `G` predicts,
every firing removes and invokes exactly that callback, regardless of the
firing order encoded in `order`. -/
theorem em_dispatchSeq_spec {α : Type} (order : List Nat) (s : EMState α)
    (G : Nat → Option α) (hnd : order.Nodup)
    (hl : ∀ i ∈ order, s.delayed_funcs.lookup i = G i ∧ (G i).isSome = true) :
    (em_dispatchSeq order s).1.map Except.toOption = order.map G := by
  induction order generalizing s with
  | nil => rfl
  | cons i rest ih =>
    obtain ⟨hGi, hsome⟩ := hl i (by simp)
    obtain ⟨f, hf⟩ := Option.isSome_iff_exists.mp hsome
    rw [hf] at hGi
    have hstep : em_dispatch i s =
        .ok (f, ⟨s.next_delay_id, s.delayed_funcs.eraseP (fun p => p.1 == i)⟩) := by
      unfold em_dispatch
      rw [hGi]
    obtain ⟨hnotmem, hndrest⟩ := List.nodup_cons.mp hnd
    simp only [em_dispatchSeq, hstep, List.map_cons]
    rw [ih _ hndrest]
    · simp [hf, Except.toOption]
    · intro j hj
      have hji : i ≠ j := fun he => hnotmem (he ▸ hj)
      refine ⟨?_, (hl j (by simp [hj])).2⟩
      rw [lookup_eraseP_ne _ _ _ hji]
      exact (hl j (by simp [hj])).1

/-- **C8** For every sequence of `delay` calls from a fresh manager: the
assigned delay ids are exactly the consecutive counter values `0, 1, ...`
(one increment per call), hence pairwise distinct; and firing the delayed
custom event once per assigned id — in any order, encoded by a permutation
of the indices — removes and invokes exactly the callback originally stored
under each id. -/
theorem delay_ids_unique_dispatch_correct {α : Type} (funcs : List α) (order : List Nat)
    (hperm : order.Perm (List.range funcs.length)) :
    (em_delayN funcs (emFresh α)).2 = List.range funcs.length
    ∧ (em_delayN funcs (emFresh α)).2.Nodup
    ∧ (em_dispatchSeq order (em_delayN funcs (emFresh α)).1).1.map Except.toOption
        = order.map (fun i => funcs.get? i) := by
  have hshape := em_delayN_eq funcs (emFresh α)
  have hids : (em_delayN funcs (emFresh α)).2 = List.range funcs.length := by
    rw [hshape, List.range_eq_range']
    rfl
  refine ⟨hids, ?_, ?_⟩
  · rw [hids]
    exact List.nodup_range funcs.length
  · apply em_dispatchSeq_spec
    · exact hperm.nodup_iff.mpr (List.nodup_range funcs.length)
    · intro i hi
      have hilt : i < funcs.length := List.mem_range.mp (hperm.mem_iff.mp hi)
      constructor
      · rw [hshape]
        have := lookup_zip_range' funcs 0 i
        simpa [emFresh] using this
      · rw [List.get?_eq_get hilt]
        rfl

/-- Witness for `delay_ids_unique_dispatch_correct`: three scheduled
callbacks fired out of order (`2, 0, 1`) each resolve to their own
callback. -/
theorem delay_ids_unique_dispatch_correct_witness :
    ([2, 0, 1].Perm (List.range ([10, 20, 30] : List Nat).length))
    ∧ ((em_delayN ([10, 20, 30] : List Nat) (emFresh Nat)).2 =
          List.range ([10, 20, 30] : List Nat).length
       ∧ (em_delayN ([10, 20, 30] : List Nat) (emFresh Nat)).2.Nodup
       ∧ (em_dispatchSeq [2, 0, 1] (em_delayN ([10, 20, 30] : List Nat) (emFresh Nat)).1).1.map
            Except.toOption
          = [2, 0, 1].map (fun i => ([10, 20, 30] : List Nat).get? i)) :=
  ⟨by decide, delay_ids_unique_dispatch_correct [10, 20, 30] [2, 0, 1] (by decide)⟩
